import Mathlib

/-!
Verification development for the identity-resolution and authorization core of
the ferriskey repository (Rust).  The Rust sources are shallowly embedded:

* pure functions (`hash_device_id`, `generate_anonymous_*`,
  `extract_realm_from_path`, the claims codec) become Lean functions;
* the persistence layer (realms / users / device profiles backed by Postgres)
  becomes an explicit `Store` value threaded through the service functions,
  with UUID generation modelled by a fresh-id counter and each repository call
  recorded in a `RepoEvent` trace;
* external collaborators that are not part of this repository (the verifying
  auth service, the base64 / UTF-8 / JSON codecs of third-party crates, the
  role-permission lookup, the policy-aware realm service) are parameters of
  the embedded functions;
* fallible code returns `Except`.

Machine integers: SHA-256 words are `Nat` reduced `% 2^32`; Rust `i64` fields
become `Int`.  Timestamp fields (`created_at`, `updated_at`) and unused
metadata fields (`checksum_sha256`, `metadata`) are omitted from embedded
records: no embedded control flow reads them.
-/

set_option maxRecDepth 8000

/-! ### Bytes, hex encoding and SHA-256 (as used by the `sha2` / `hex` crates) -/

/-- Reduction of a `Nat` to a 32-bit word, the overflow behaviour of `u32`. -/
def wmask (x : Nat) : Nat := x % 4294967296

/-- Right rotation of a 32-bit word. -/
def rotr32 (x n : Nat) : Nat := wmask ((x >>> n) ||| (x <<< (32 - n)))

/-- SHA-256 big sigma-0 function. -/
def bigSigma0 (x : Nat) : Nat := Nat.xor (rotr32 x 2) (Nat.xor (rotr32 x 13) (rotr32 x 22))

/-- SHA-256 big sigma-1 function. -/
def bigSigma1 (x : Nat) : Nat := Nat.xor (rotr32 x 6) (Nat.xor (rotr32 x 11) (rotr32 x 25))

/-- SHA-256 small sigma-0 function. -/
def smallSigma0 (x : Nat) : Nat := Nat.xor (rotr32 x 7) (Nat.xor (rotr32 x 18) (x >>> 3))

/-- SHA-256 small sigma-1 function. -/
def smallSigma1 (x : Nat) : Nat := Nat.xor (rotr32 x 17) (Nat.xor (rotr32 x 19) (x >>> 10))

/-- SHA-256 choose function; 32-bit complement written as xor with `2^32 - 1`. -/
def chOp (x y z : Nat) : Nat := Nat.xor (x &&& y) ((Nat.xor x 4294967295) &&& z)

/-- SHA-256 majority function. -/
def majOp (x y z : Nat) : Nat := Nat.xor (x &&& y) (Nat.xor (x &&& z) (y &&& z))

/-- The 64 SHA-256 round constants. -/
def sha256K : List Nat :=
  [1116352408, 1899447441, 3049323471, 3921009573, 961987163,
   1508970993, 2453635748, 2870763221, 3624381080, 310598401,
   607225278, 1426881987, 1925078388, 2162078206, 2614888103,
   3248222580, 3835390401, 4022224774, 264347078, 604807628,
   770255983, 1249150122, 1555081692, 1996064986, 2554220882,
   2821834349, 2952996808, 3210313671, 3336571891, 3584528711,
   113926993, 338241895, 666307205, 773529912, 1294757372,
   1396182291, 1695183700, 1986661051, 2177026350, 2456956037,
   2730485921, 2820302411, 3259730800, 3345764771, 3516065817,
   3600352804, 4094571909, 275423344, 430227734, 506948616,
   659060556, 883997877, 958139571, 1322822218, 1537002063,
   1747873779, 1955562222, 2024104815, 2227730452, 2361852424,
   2428436474, 2756734187, 3204031479, 3329325298]

/-- The SHA-256 initial hash value. -/
def sha256H0 : List Nat :=
  [1779033703, 3144134277, 1013904242, 2773480762,
   1359893119, 2600822924, 528734635, 1541459225]

/-- Big-endian byte decomposition of a number into `k` bytes. -/
def toBytesBE : Nat → Nat → List Nat
  | 0, _ => []
  | k + 1, n => toBytesBE k (n >>> 8) ++ [n % 256]

/-- SHA-256 message padding: append `0x80`, zero bytes to 56 mod 64, and the
bit length as a 64-bit big-endian integer. -/
def padMessage (msg : List Nat) : List Nat :=
  msg ++ [0x80] ++ List.replicate ((119 - msg.length % 64) % 64) 0 ++ toBytesBE 8 (msg.length * 8)

/-- Group bytes into big-endian 32-bit words. -/
def bytesToWords : List Nat → List Nat
  | a :: b :: c :: d :: rest => (((a * 256 + b) * 256 + c) * 256 + d) :: bytesToWords rest
  | _ => []

/-- Group words into 16-word blocks. -/
def toBlocks : List Nat → List (List Nat)
  | w0 :: w1 :: w2 :: w3 :: w4 :: w5 :: w6 :: w7 ::
    w8 :: w9 :: w10 :: w11 :: w12 :: w13 :: w14 :: w15 :: rest =>
      [w0, w1, w2, w3, w4, w5, w6, w7, w8, w9, w10, w11, w12, w13, w14, w15] :: toBlocks rest
  | _ => []

/-- Message-schedule extension, keeping the schedule in reverse order so the
back references `w[i-2]`, `w[i-7]`, `w[i-15]`, `w[i-16]` are positions
1, 6, 14 and 15 of the accumulator. -/
def extendSchedule : Nat → List Nat → List Nat
  | 0, rws => rws
  | n + 1, rws =>
      let w := wmask (smallSigma1 (rws.getD 1 0) + rws.getD 6 0 +
        smallSigma0 (rws.getD 14 0) + rws.getD 15 0)
      extendSchedule n (w :: rws)

/-- The 64-word message schedule of one block. -/
def schedule (block : List Nat) : List Nat := (extendSchedule 48 block.reverse).reverse

/-- One SHA-256 compression round on the state `[a,b,c,d,e,f,g,h]`. -/
def compressRound (st : List Nat) (kw : Nat × Nat) : List Nat :=
  match st with
  | [a, b, c, d, e, f, g, h] =>
      let t1 := wmask (h + bigSigma1 e + chOp e f g + kw.1 + kw.2)
      let t2 := wmask (bigSigma0 a + majOp a b c)
      [wmask (t1 + t2), a, b, c, wmask (d + t1), e, f, g]
  | st => st

/-- Process one 16-word block: 64 compression rounds, then add the state back
into the intermediate hash. -/
def processBlock (h : List Nat) (block : List Nat) : List Nat :=
  let st := (sha256K.zip (schedule block)).foldl compressRound h
  List.zipWith (fun x y => wmask (x + y)) h st

/-- The SHA-256 digest (32 bytes) of a byte list. -/
def sha256 (msg : List Nat) : List Nat :=
  (((toBlocks (bytesToWords (padMessage msg))).foldl processBlock sha256H0).map (toBytesBE 4)).flatten

/-- Lower-case hex digit for a value below 16. -/
def hexDigit (n : Nat) : Char :=
  if n < 10 then Char.ofNat (48 + n) else Char.ofNat (87 + n)

/-- Two lower-case hex digits of a byte. -/
def hexByte (b : Nat) : List Char := [hexDigit (b / 16), hexDigit (b % 16)]

/-- Lower-case hex string of a byte list, the behaviour of `hex::encode`. -/
def hexEncode (bytes : List Nat) : String := String.mk ((bytes.map hexByte).flatten)

/-- UTF-8 encoding of one character. -/
def utf8EncodeChar (c : Char) : List Nat :=
  let n := c.toNat
  if n < 0x80 then [n]
  else if n < 0x800 then [0xC0 ||| (n >>> 6), 0x80 ||| (n &&& 0x3F)]
  else if n < 0x10000 then
    [0xE0 ||| (n >>> 12), 0x80 ||| ((n >>> 6) &&& 0x3F), 0x80 ||| (n &&& 0x3F)]
  else
    [0xF0 ||| (n >>> 18), 0x80 ||| ((n >>> 12) &&& 0x3F), 0x80 ||| ((n >>> 6) &&& 0x3F),
     0x80 ||| (n &&& 0x3F)]

/-- UTF-8 bytes of a string, the behaviour of Rust `str::as_bytes`. -/
def strBytes (s : String) : List Nat := (s.data.map utf8EncodeChar).flatten

/-! ### Anonymous-identity derivation
Embedded from `core/src/domain/device_profile/services.rs`. -/

/-- Embedding of `hash_device_id`: hex encoding of the first 16 bytes of the
SHA-256 digest of the device id. -/
def hash_device_id (device_id : String) : String :=
  hexEncode ((sha256 (strBytes device_id)).take 16)

/-- Embedding of `generate_anonymous_username`. -/
def generate_anonymous_username (device_id : String) : String :=
  hash_device_id device_id

/-- Embedding of `generate_anonymous_email`. -/
def generate_anonymous_email (device_id : String) : String :=
  "device_" ++ hash_device_id device_id ++ "@anonymous.local"

/-- Embedding of `generate_anonymous_name`. -/
def generate_anonymous_name (device_id : String) (suffix : String) : String :=
  "device_" ++ hash_device_id device_id ++ "_" ++ suffix

/-! ### Data model
Records embedded from the domain entities.  UUIDs are modelled as `Nat`.
The `Identity` value object and the error enums of `common/entities` and the
API layer are not under the provided sources; they are modelled from the
spec where noted. -/

/-- Embedding of `Realm`, keeping the fields this core reads. -/
structure Realm where
  id : Nat
  name : String
deriving DecidableEq

/-- Embedding of `User`, keeping the fields the embedded services read and
write; `realm` is the eagerly loaded realm relation used by the storage
services. -/
structure User where
  id : Nat
  realm_id : Nat
  username : String
  email : String
  firstname : String
  lastname : String
  email_verified : Bool
  enabled : Bool
  realm : Option Realm
deriving DecidableEq

/-- Modelled from the spec: `Identity` is a tagged union whose only populated
variant wraps a `User`; it carries the user id. -/
inductive Identity where
  | user (u : User)
deriving DecidableEq

/-- Modelled from the spec: `Identity` carries `id: UUID`, the wrapped user id. -/
def Identity.id : Identity → Nat
  | .user u => u.id

/-- Embedding of `DeviceProfile` (timestamps omitted). -/
structure DeviceProfile where
  id : Nat
  realm_id : Nat
  device_id : String
  user_id : Nat
  created_by : Option Nat
  updated_by : Option Nat
deriving DecidableEq

/-- Embedding of `DeviceProfile::new`; `Uuid::new_v7` is modelled by the
fresh id supplied by the caller, and `updated_by` is initialised to
`created_by` as in the source. -/
def DeviceProfile.new (fresh_id realm_id : Nat) (device_id : String) (user_id : Nat)
    (created_by : Option Nat) : DeviceProfile :=
  { id := fresh_id, realm_id := realm_id, device_id := device_id, user_id := user_id,
    created_by := created_by, updated_by := created_by }

/-- Embedding of `CreateUserRequest`. -/
structure CreateUserRequest where
  realm_id : Nat
  username : String
  email : String
  firstname : String
  lastname : String
  email_verified : Bool
  enabled : Bool
  client_id : Option Nat
deriving DecidableEq

/-- Modelled from the spec: the API-layer `ApiError` rejection outcomes
(`Unauthorized | BadRequest | NotFound | Forbidden | InternalServerError`),
each carrying a message; the defining file is not under the provided sources. -/
inductive ApiError where
  | Unauthorized (msg : String)
  | BadRequest (msg : String)
  | NotFound (msg : String)
  | Forbidden (msg : String)
  | InternalServerError (msg : String)
deriving DecidableEq

/-- Modelled from the spec: the `CoreError` variants the embedded services
produce; the defining file `common/entities/app_errors.rs` is not under the
provided sources. -/
inductive CoreError where
  | NotFound
  | InternalServerError
  | InvalidRealm
  | InvalidPagination
  | Invalid
  | FileTooLarge
  | Forbidden (msg : String)
deriving DecidableEq

/-- Embedding of `AuthError` from `api/src/application/auth.rs`. -/
inductive AuthError where
  | InvalidToken
  | TokenExpired
  | TokenNotFound
  | InvalidSignature
deriving DecidableEq

/-! ### Persistence model
The Postgres-backed repositories are embedded as lookups and inserts on an
explicit `Store`; `nextUuid` models the UUID generator.  Infrastructure
failures (lost connections etc.) are not modelled: repository calls fail only
for data-dependent reasons (absent rows).  Every repository call made by an
embedded service is recorded as a `RepoEvent` so that theorems can state
which lookups and writes a code path performs. -/

/-- Repository-call events, one per repository method invoked by the
embedded services. -/
inductive RepoEvent where
  | getRealmByName (name : String)
  | getProfileByRealmAndDevice (realm_id : Nat) (device_id : String)
  | getUserByUsername (username : String) (realm_id : Nat)
  | getUserById (id : Nat)
  | createUser (realm_id : Nat) (username : String)
  | createProfile (realm_id : Nat) (device_id : String)
deriving DecidableEq

/-- The persistent state: realm, user and device-profile tables plus the
fresh-UUID counter. -/
structure Store where
  realms : List Realm
  users : List User
  profiles : List DeviceProfile
  nextUuid : Nat
deriving DecidableEq

/-- Embedding of `RealmRepository::get_by_name`. -/
def Store.getRealmByName (s : Store) (name : String) : Option Realm :=
  s.realms.find? (fun r => r.name == name)

/-- Realm row lookup by id, used to populate the `realm` relation of a user. -/
def Store.getRealmById (s : Store) (id : Nat) : Option Realm :=
  s.realms.find? (fun r => r.id == id)

/-- Embedding of `DeviceProfileRepository::get_by_realm_and_device`: the row
whose `realm_id` and `device_id` both match. -/
def Store.getProfileByRealmAndDevice (s : Store) (realm_id : Nat) (device_id : String) :
    Option DeviceProfile :=
  s.profiles.find? (fun p => p.realm_id == realm_id && p.device_id == device_id)

/-- Embedding of `UserRepository::get_by_id`. -/
def Store.getUserById (s : Store) (id : Nat) : Option User :=
  s.users.find? (fun u => u.id == id)

/-- Embedding of `UserRepository::get_by_username` scoped to a realm. -/
def Store.getUserByUsername (s : Store) (username : String) (realm_id : Nat) : Option User :=
  s.users.find? (fun u => u.username == username && u.realm_id == realm_id)

/-- Fresh UUID allocation: returns the next id and bumps the counter. -/
def Store.freshUuid (s : Store) : Nat × Store :=
  (s.nextUuid, { s with nextUuid := s.nextUuid + 1 })

/-- Embedding of `UserRepository::create_user`: inserts a row with a fresh id
and the realm relation loaded from the realm table. -/
def Store.createUser (s : Store) (req : CreateUserRequest) : User × Store :=
  let (uid, s1) := s.freshUuid
  let user : User :=
    { id := uid, realm_id := req.realm_id, username := req.username, email := req.email,
      firstname := req.firstname, lastname := req.lastname,
      email_verified := req.email_verified, enabled := req.enabled,
      realm := s.getRealmById req.realm_id }
  (user, { s1 with users := s1.users ++ [user] })

/-- Embedding of `DeviceProfileRepository::create`: inserts the row and
returns it. -/
def Store.createProfile (s : Store) (p : DeviceProfile) : DeviceProfile × Store :=
  (p, { s with profiles := s.profiles ++ [p] })

/-! ### Device Identity Provisioner
Embedding of `get_or_create_device_profile` from
`core/src/domain/device_profile/services.rs`.  In the store model the
repository calls only fail for data-dependent reasons, so the function is
total; it returns the profile, the updated store and the trace of repository
calls it performed. -/

/-- Embedding of the core helper `get_or_create_device_profile`: look up the
profile for `(realm.id, device_id)`; if present return it, otherwise create
an anonymous user from the derived fields and a profile whose `created_by`
is the acting identity id. -/
def get_or_create_device_profile (s : Store) (realm : Realm) (device_id : String)
    (identity : Identity) : DeviceProfile × Store × List RepoEvent :=
  match s.getProfileByRealmAndDevice realm.id device_id with
  | some profile => (profile, s, [.getProfileByRealmAndDevice realm.id device_id])
  | none =>
    let username := generate_anonymous_username device_id
    let email := generate_anonymous_email device_id
    let firstname := generate_anonymous_name device_id "firstname"
    let lastname := generate_anonymous_name device_id "lastname"
    let (user, s1) := s.createUser
      { realm_id := realm.id, username := username, email := email, firstname := firstname,
        lastname := lastname, email_verified := false, enabled := true, client_id := none }
    let (pid, s2) := s1.freshUuid
    let device_profile := DeviceProfile.new pid realm.id device_id user.id (some identity.id)
    let (profile, s3) := s2.createProfile device_profile
    (profile, s3,
      [.getProfileByRealmAndDevice realm.id device_id,
       .createUser realm.id username, .createProfile realm.id device_id])

/-! ### Request parts and path parsing
Embedding of the extractor environment of `api/src/application/auth.rs`. -/

/-- The request data the embedded extractors and middleware read: the
`Identity` extension slot, the header map and the URI path. -/
structure Parts where
  extIdentity : Option Identity
  headers : List (String × String)
  uriPath : String
deriving DecidableEq

/-- Header lookup on the embedded header map. -/
def getHeaderValue (headers : List (String × String)) (name : String) : Option String :=
  (headers.find? (fun kv => kv.1 == name)).map (fun kv => kv.2)

/-- Character-level split matching Rust `str::split(char)`: splitting the
empty string yields `[""]` and separators at the ends yield empty segments. -/
def splitCharAux (sep : Char) : List Char → List Char → List String
  | [], acc => [String.mk acc.reverse]
  | c :: cs, acc =>
      if c == sep then String.mk acc.reverse :: splitCharAux sep cs []
      else splitCharAux sep cs (c :: acc)

/-- Split a string on a separator character, Rust `str::split` semantics. -/
def splitChar (sep : Char) (s : String) : List String := splitCharAux sep s.data []

/-- Embedding of `extract_realm_from_path`: the path segment immediately
following the first literal `realms` segment, when it exists. -/
def extract_realm_from_path (path : String) : Option String :=
  let parts := splitChar '/' path
  match parts.findIdx? (fun p => p == "realms") with
  | some realm_idx => if realm_idx + 1 < parts.length then parts[realm_idx + 1]? else none
  | none => none

/-! ### RequiredIdentity device-provisioning path
Embedding of `get_admin_user_id`, `create_identity_from_device` and
`RequiredIdentity::from_request_parts` from `api/src/application/auth.rs`.
Error messages that interpolate values in the source are concatenations
here; the source message `Realm '<name>' not found` is rendered without the
surrounding quote characters. -/

/-- Embedding of `get_admin_user_id`: id of the user named `admin` in the
realm; a failed lookup becomes `InternalServerError` as in the source. -/
def get_admin_user_id (s : Store) (realm_id : Nat) : Except ApiError Nat :=
  match s.getUserByUsername "admin" realm_id with
  | some admin_user => .ok admin_user.id
  | none => .error (.InternalServerError "Failed to get admin user")

/-- Embedding of `create_identity_from_device`: resolve the realm by name,
take an existing device profile or create an anonymous user and a profile
whose `created_by` is the realm admin id, then wrap the profile user as an
`Identity`.  Returns the result, the store and the repository-call trace. -/
def create_identity_from_device (s : Store) (device_id : String) (realm_name : String) :
    (Except ApiError Identity) × Store × List RepoEvent :=
  match s.getRealmByName realm_name with
  | none =>
      (.error (.NotFound ("Realm " ++ realm_name ++ " not found")), s,
        [.getRealmByName realm_name])
  | some realm =>
    match s.getProfileByRealmAndDevice realm.id device_id with
    | some device_profile =>
        match s.getUserById device_profile.user_id with
        | none =>
            (.error (.InternalServerError "用户初始化失败"), s,
              [.getRealmByName realm_name,
               .getProfileByRealmAndDevice realm.id device_id,
               .getUserById device_profile.user_id])
        | some user =>
            (.ok (.user user), s,
              [.getRealmByName realm_name,
               .getProfileByRealmAndDevice realm.id device_id,
               .getUserById device_profile.user_id])
    | none =>
      match get_admin_user_id s realm.id with
      | .error e =>
          (.error e, s,
            [.getRealmByName realm_name,
             .getProfileByRealmAndDevice realm.id device_id,
             .getUserByUsername "admin" realm.id])
      | .ok admin_user_id =>
        let username := generate_anonymous_username device_id
        let email := generate_anonymous_email device_id
        let firstname := generate_anonymous_name device_id "firstname"
        let lastname := generate_anonymous_name device_id "lastname"
        let (user, s1) := s.createUser
          { realm_id := realm.id, username := username, email := email,
            firstname := firstname, lastname := lastname, email_verified := false,
            enabled := true, client_id := none }
        let (pid, s2) := s1.freshUuid
        let device_profile := DeviceProfile.new pid realm.id device_id user.id
          (some admin_user_id)
        let (created, s3) := s2.createProfile device_profile
        let evs : List RepoEvent :=
          [.getRealmByName realm_name,
           .getProfileByRealmAndDevice realm.id device_id,
           .getUserByUsername "admin" realm.id,
           .createUser realm.id username, .createProfile realm.id device_id]
        match s3.getUserById created.user_id with
        | none =>
            (.error (.InternalServerError "用户初始化失败"), s3,
              evs ++ [.getUserById created.user_id])
        | some user =>
            (.ok (.user user), s3, evs ++ [.getUserById created.user_id])

/-- Embedding of `RequiredIdentity::from_request_parts`: an already attached
`Identity` wins; otherwise a non-empty `X-Device-Id` header, the realm name
from the path and the device-provisioning path are required, and the
resolved identity is cached back into the extensions. -/
def requiredIdentityFromRequestParts (s : Store) (parts : Parts) :
    (Except ApiError Identity) × Parts × Store × List RepoEvent :=
  match parts.extIdentity with
  | some identity => (.ok identity, parts, s, [])
  | none =>
    match getHeaderValue parts.headers "x-device-id" with
    | some device_id =>
      if device_id.data.isEmpty then
        (.error (.Unauthorized
          "Authentication required: provide either Authorization header or X-Device-Id header"),
          parts, s, [])
      else
        match extract_realm_from_path parts.uriPath with
        | none =>
            (.error (.BadRequest "Invalid path: realm_name not found in path"), parts, s, [])
        | some realm_name =>
          match create_identity_from_device s device_id realm_name with
          | (.error e, s1, evs) => (.error e, parts, s1, evs)
          | (.ok identity, s1, evs) =>
              (.ok identity, { parts with extIdentity := some identity }, s1, evs)
    | none =>
        (.error (.Unauthorized
          "Authentication required: provide either Authorization header or X-Device-Id header"),
          parts, s, [])

/-! ### Device-context middleware
Embedding of `device_middleware` from
`api/src/application/device_middleware.rs`.  The policy-aware realm service
`FerrisKeyService::get_realm_by_name` is an external collaborator here and is
passed as a parameter; the transport-level rejection is a status code. -/

/-- The device context published into the request extensions. -/
structure DeviceContext where
  device_id : String
  user_id : Nat
deriving DecidableEq

/-- Embedding of `device_middleware` up to the publication of the
`DeviceContext`: resolve the device id (header or the `default_device`
sentinel), the realm (policy-aware service when an identity is attached,
direct realm lookup otherwise), then get or create the device profile — via
the core helper when an identity is attached, otherwise inline with the new
anonymous user recorded as its own `created_by`. -/
def device_middleware (serviceGetRealmByName : Identity → String → Option Realm)
    (s : Store) (req : Parts) : (Except Nat DeviceContext) × Store × List RepoEvent :=
  let device_id := (getHeaderValue req.headers "x-device-id").getD "default_device"
  match extract_realm_from_path req.uriPath with
  | none => (.error 400, s, [])
  | some realm_name =>
    match req.extIdentity with
    | some identity =>
      match serviceGetRealmByName identity realm_name with
      | none => (.error 500, s, [])
      | some realm =>
        let (profile, s1, evs) := get_or_create_device_profile s realm device_id identity
        (.ok { device_id := profile.device_id, user_id := profile.user_id }, s1, evs)
    | none =>
      match s.getRealmByName realm_name with
      | none => (.error 404, s, [.getRealmByName realm_name])
      | some realm =>
        match s.getProfileByRealmAndDevice realm.id device_id with
        | some profile =>
            (.ok { device_id := profile.device_id, user_id := profile.user_id }, s,
              [.getRealmByName realm_name,
               .getProfileByRealmAndDevice realm.id device_id])
        | none =>
          let username := generate_anonymous_username device_id
          let email := generate_anonymous_email device_id
          let firstname := generate_anonymous_name device_id "firstname"
          let lastname := generate_anonymous_name device_id "lastname"
          let (user, s1) := s.createUser
            { realm_id := realm.id, username := username, email := email,
              firstname := firstname, lastname := lastname, email_verified := false,
              enabled := true, client_id := none }
          let (pid, s2) := s1.freshUuid
          let device_profile := DeviceProfile.new pid realm.id device_id user.id (some user.id)
          let (profile, s3) := s2.createProfile device_profile
          (.ok { device_id := profile.device_id, user_id := profile.user_id }, s3,
            [.getRealmByName realm_name,
             .getProfileByRealmAndDevice realm.id device_id,
             .createUser realm.id username, .createProfile realm.id device_id])

/-! ### Claims codec and soft auth middleware
Embedding of `Jwt::from_request_parts` (token-level part) and the `auth`
middleware from `api/src/application/auth.rs`.  The `base64` crate decoder,
UTF-8 validation, `serde_json` parsing and the external
`AuthService::authorize_request` are external collaborators, passed as
parameters; the embedded code only routes their `Option` outcomes. -/

/-- Modelled from the spec: the structural claims record of a token payload
(subject / user id, realm, expiry); its defining file `jwt/entities.rs` is
not under the provided sources and no embedded control flow reads its
fields. -/
structure JwtClaim where
  sub : Nat
  realmName : String
  exp : Nat
deriving DecidableEq

/-- Embedding of the `Jwt` extractor value: parsed claims plus raw token. -/
structure Jwt where
  claims : JwtClaim
  token : String
deriving DecidableEq

/-- Option-returning prefix strip matching Rust `str::strip_prefix`. -/
def stripPrefixOpt (p s : String) : Option String :=
  if p.data.isPrefixOf s.data then some (String.mk (s.data.drop p.data.length)) else none

/-- Embedding of the token-level body of `Jwt::from_request_parts`: split on
`.`, require exactly 3 segments, then base64url-decode (no padding) the
middle segment, interpret as UTF-8, parse as claims; every failure is
`InvalidToken`.  Totality of this definition is the no-panic property. -/
def jwtDecode (b64UrlDecodeNoPad : String → Option (List Nat))
    (utf8Decode : List Nat → Option String)
    (parseClaims : String → Option JwtClaim) (token : String) : Except AuthError Jwt :=
  let t := splitChar '.' token
  if t.length ≠ 3 then .error .InvalidToken
  else
    let payload := t.getD 1 ""
    match b64UrlDecodeNoPad payload with
    | none => .error .InvalidToken
    | some decoded =>
      match utf8Decode decoded with
      | none => .error .InvalidToken
      | some payload_str =>
        match parseClaims payload_str with
        | none => .error .InvalidToken
        | some claims => .ok { claims := claims, token := token }

/-- Embedding of the soft `auth` middleware: attempt bearer resolution and
attach the verified identity on full success, otherwise leave the request
untouched; always hand the (possibly updated) request to `next` and return
its response — the `Err(StatusCode)` side of the source signature is never
produced. -/
def auth {Response : Type} (b64UrlDecodeNoPad : String → Option (List Nat))
    (utf8Decode : List Nat → Option String)
    (parseClaims : String → Option JwtClaim)
    (authorizeRequest : JwtClaim → String → Option Identity)
    (req : Parts) (next : Parts → Response) : Except Nat Response :=
  let req1 :=
    match getHeaderValue req.headers "authorization" with
    | none => req
    | some auth_str =>
      match stripPrefixOpt "Bearer " auth_str with
      | none => req
      | some token =>
        if token.data.isEmpty then req
        else
          let t := splitChar '.' token
          if t.length == 3 then
            let payload := t.getD 1 ""
            match b64UrlDecodeNoPad payload with
            | none => req
            | some decoded =>
              match utf8Decode decoded with
              | none => req
              | some payload_str =>
                match parseClaims payload_str with
                | none => req
                | some claims =>
                  match authorizeRequest claims token with
                  | none => req
                  | some identity => { req with extIdentity := some identity }
          else req
  .ok (next req1)

/-- Specification-side bearer resolution for the soft middleware, following
the spec wording: an `Authorization` header with a non-empty `Bearer` token
that decodes (3 segments, base64url, UTF-8, claims parse) and is accepted by
the external auth service yields the verified identity; anything else yields
nothing.  Compared against `auth` in the refinement theorem. -/
def softBearerResolveSpec (b64UrlDecodeNoPad : String → Option (List Nat))
    (utf8Decode : List Nat → Option String)
    (parseClaims : String → Option JwtClaim)
    (authorizeRequest : JwtClaim → String → Option Identity)
    (headers : List (String × String)) : Option Identity := do
  let auth_str ← getHeaderValue headers "authorization"
  let token ← stripPrefixOpt "Bearer " auth_str
  if token.data.isEmpty then none
  else
    let t := splitChar '.' token
    if t.length = 3 then do
      let decoded ← b64UrlDecodeNoPad (t.getD 1 "")
      let payload_str ← utf8Decode decoded
      let claims ← parseClaims payload_str
      authorizeRequest claims token
    else none

/-! ### Permission / policy engine
Embedding of the prompt and food-analysis policies from
`core/src/domain/prompt/policies.rs` and
`core/src/domain/food_analysis/policies.rs`.  The user resolution
(`get_user_from_identity`) and the effective-permission lookup
(`get_permission_for_target_realm`) live in `common/policies.rs`, which is
not under the provided sources: they are passed as parameters. -/

/-- Modelled from the spec: the enumerable permission set; the defining file
`role/entities/permission.rs` is not under the provided sources.  Only the
members named by the spec and the embedded whitelists are included. -/
inductive Permissions where
  | ManageRealm
  | ManageWebhooks
  | ViewWebhooks
deriving DecidableEq

/-- Modelled from the spec: `Permissions::has_one_of_permissions` answers the
shared rule "has at least one of these permissions" — true iff the caller
permission list intersects the whitelist; the defining file is not under the
provided sources. -/
def has_one_of_permissions (permissions required : List Permissions) : Bool :=
  permissions.any (fun p => required.contains p)

/-- Embedding of `can_view_prompt`: whitelist
`{ManageRealm, ManageWebhooks, ViewWebhooks}`. -/
def can_view_prompt (getUserFromIdentity : Identity → Except CoreError User)
    (getPermissionForTargetRealm : User → Realm → Except CoreError (List Permissions))
    (identity : Identity) (target_realm : Realm) : Except CoreError Bool := do
  let user ← getUserFromIdentity identity
  let permissions ← getPermissionForTargetRealm user target_realm
  pure (has_one_of_permissions permissions
    [.ManageRealm, .ManageWebhooks, .ViewWebhooks])

/-- Embedding of `can_create_prompt`: whitelist `{ManageRealm, ManageWebhooks}`. -/
def can_create_prompt (getUserFromIdentity : Identity → Except CoreError User)
    (getPermissionForTargetRealm : User → Realm → Except CoreError (List Permissions))
    (identity : Identity) (target_realm : Realm) : Except CoreError Bool := do
  let user ← getUserFromIdentity identity
  let permissions ← getPermissionForTargetRealm user target_realm
  pure (has_one_of_permissions permissions [.ManageRealm, .ManageWebhooks])

/-- Embedding of `can_update_prompt`: whitelist `{ManageRealm, ManageWebhooks}`. -/
def can_update_prompt (getUserFromIdentity : Identity → Except CoreError User)
    (getPermissionForTargetRealm : User → Realm → Except CoreError (List Permissions))
    (identity : Identity) (target_realm : Realm) : Except CoreError Bool := do
  let user ← getUserFromIdentity identity
  let permissions ← getPermissionForTargetRealm user target_realm
  pure (has_one_of_permissions permissions [.ManageRealm, .ManageWebhooks])

/-- Embedding of `can_delete_prompt`: whitelist `{ManageRealm, ManageWebhooks}`. -/
def can_delete_prompt (getUserFromIdentity : Identity → Except CoreError User)
    (getPermissionForTargetRealm : User → Realm → Except CoreError (List Permissions))
    (identity : Identity) (target_realm : Realm) : Except CoreError Bool := do
  let user ← getUserFromIdentity identity
  let permissions ← getPermissionForTargetRealm user target_realm
  pure (has_one_of_permissions permissions [.ManageRealm, .ManageWebhooks])

/-- Embedding of `can_analyze_food`: whitelist
`{ManageRealm, ManageWebhooks, ViewWebhooks}`. -/
def can_analyze_food (getUserFromIdentity : Identity → Except CoreError User)
    (getPermissionForTargetRealm : User → Realm → Except CoreError (List Permissions))
    (identity : Identity) (target_realm : Realm) : Except CoreError Bool := do
  let user ← getUserFromIdentity identity
  let permissions ← getPermissionForTargetRealm user target_realm
  pure (has_one_of_permissions permissions
    [.ManageRealm, .ManageWebhooks, .ViewWebhooks])

/-- Embedding of `can_view_analysis`, a literal alias of `can_analyze_food`
as in the source. -/
def can_view_analysis (getUserFromIdentity : Identity → Except CoreError User)
    (getPermissionForTargetRealm : User → Realm → Except CoreError (List Permissions))
    (identity : Identity) (target_realm : Realm) : Except CoreError Bool :=
  can_analyze_food getUserFromIdentity getPermissionForTargetRealm identity target_realm

/-! ### Storage service realm guard
Embedding of `complete_upload` and `list_files` from
`core/src/domain/storage/services.rs`.  The stored-object repository, the
policy checks `can_upload` / `can_view` and the listing itself are passed as
parameters; the user repository is the `Store`. -/

/-- Embedding of `StoredObject` (timestamps, checksum and JSON metadata
omitted; no embedded control flow reads them). -/
structure StoredObject where
  id : Nat
  realm_id : Nat
  bucket : String
  object_key : String
  original_name : String
  mime_type : String
  size_bytes : Int
  uploaded_by : Nat
  created_by : Option Nat
  updated_by : Option Nat
deriving DecidableEq

/-- Embedding of `StoredObjectFilter` (timestamp bounds omitted). -/
structure StoredObjectFilter where
  realm_id : Option Nat
  mime_type : Option String
  uploaded_by : Option Nat
deriving DecidableEq

/-- Embedding of `OffsetLimit`. -/
structure OffsetLimit where
  offset : Int
  limit : Int
deriving DecidableEq

/-- Embedding of `OffsetLimit::validate`. -/
def OffsetLimit.validate (p : OffsetLimit) : Except String Unit :=
  if p.offset < 0 then .error "offset must be >= 0"
  else if p.limit ≤ 0 || p.limit > 100 then .error "limit must be between 1 and 100"
  else .ok ()

/-- Embedding of `StoredObjectRepository::get_by_id`: `NotFound` when the row
is absent. -/
def getStoredObjectById (objects : List StoredObject) (id : Nat) :
    Except CoreError StoredObject :=
  match objects.find? (fun o => o.id == id) with
  | some o => .ok o
  | none => .error .NotFound

/-- User lookup as the storage services use it; the Postgres user repository
(not under the provided sources) rejects an absent row, modelled from the
spec as `NotFound`. -/
def getUserByIdStrict (s : Store) (id : Nat) : Except CoreError User :=
  match s.getUserById id with
  | some u => .ok u
  | none => .error .NotFound

/-- Modelled from the spec: `ensure_policy` from `common/policies.rs` (not
under the provided sources) — a granted check passes, a denied check is
`Forbidden` with the given message, and a failed lookup propagates. -/
def ensure_policy (res : Except CoreError Bool) (msg : String) : Except CoreError Unit :=
  match res with
  | .ok true => .ok ()
  | .ok false => .error (.Forbidden msg)
  | .error e => .error e

/-- Embedding of `FileService::complete_upload`: fetch the object, resolve
the caller user and its realm, apply the realm guard, then the `can_upload`
policy and the uploader check. -/
def complete_upload (canUpload : Identity → Realm → Except CoreError Bool)
    (s : Store) (objects : List StoredObject) (identity : Identity) (object_id : Nat) :
    Except CoreError StoredObject := do
  let stored_object ← getStoredObjectById objects object_id
  let user ← getUserByIdStrict s identity.id
  let realm ← match user.realm with
    | some r => Except.ok r
    | none => Except.error CoreError.InvalidRealm
  if stored_object.realm_id ≠ realm.id ∧ realm.name ≠ "master" then
    Except.error (.Forbidden "File not in accessible realm")
  else do
    ensure_policy (canUpload identity realm) "insufficient permissions to complete upload"
    if stored_object.uploaded_by ≠ identity.id then
      Except.error (.Forbidden "cannot complete upload for another user")
    else
      pure stored_object

/-- Embedding of `FileService::list_files`: validate pagination, require a
realm filter, resolve the caller user and its realm, apply the realm guard,
then the `can_view` policy and the repository listing. -/
def list_files (canView : Identity → Realm → Except CoreError Bool)
    (listRepo : StoredObjectFilter → OffsetLimit → Except CoreError (List StoredObject))
    (s : Store) (identity : Identity) (filter : StoredObjectFilter)
    (pagination : OffsetLimit) : Except CoreError (List StoredObject) := do
  let _ ← match pagination.validate with
    | .ok u => Except.ok u
    | .error _ => Except.error CoreError.InvalidPagination
  let realm_id ← match filter.realm_id with
    | some rid => Except.ok rid
    | none => Except.error CoreError.InvalidRealm
  let user ← getUserByIdStrict s identity.id
  let realm ← match user.realm with
    | some r => Except.ok r
    | none => Except.error CoreError.InvalidRealm
  if realm_id ≠ realm.id ∧ realm.name ≠ "master" then
    Except.error (.Forbidden "Cannot list files in inaccessible realm")
  else do
    ensure_policy (canView identity realm) "insufficient permissions to list files"
    listRepo filter pagination

/-! ### Concrete fixtures used by witnesses and counterexamples -/

/-- Example realm `acme`. -/
def exRealm : Realm := { id := 1, name := "acme" }

/-- Example admin user of realm `acme`. -/
def exAdmin : User :=
  { id := 10, realm_id := 1, username := "admin", email := "admin@acme.local",
    firstname := "Admin", lastname := "User", email_verified := true, enabled := true,
    realm := some exRealm }

/-- Example ordinary user of realm `acme`. -/
def exBob : User :=
  { id := 11, realm_id := 1, username := "bob", email := "bob@acme.local",
    firstname := "Bob", lastname := "Builder", email_verified := true, enabled := true,
    realm := some exRealm }

/-- Example identity wrapping the ordinary user. -/
def exIdentity : Identity := .user exBob

/-- Example store: realm `acme` with an admin and an ordinary user, no device
profiles. -/
def exStore : Store := { realms := [exRealm], users := [exAdmin, exBob], profiles := [], nextUuid := 20 }

/-- Example store whose realm has no `admin` user. -/
def exStoreNoAdmin : Store := { realms := [exRealm], users := [exBob], profiles := [], nextUuid := 20 }

/-- Example request carrying both an attached bearer identity and an
`X-Device-Id` header. -/
def exParts : Parts :=
  { extIdentity := some exIdentity, headers := [("x-device-id", "dev1")],
    uriPath := "/realms/acme/devices/dev1" }

/-- Example stored object belonging to a foreign realm (id 3). -/
def exObjForeign : StoredObject :=
  { id := 5, realm_id := 3, bucket := "ferriskey-other", object_key := "k",
    original_name := "f.png", mime_type := "image/png", size_bytes := 100,
    uploaded_by := 11, created_by := some 11, updated_by := some 11 }

/-- Example filter asking for the foreign realm. -/
def exFilter : StoredObjectFilter := { realm_id := some 3, mime_type := none, uploaded_by := none }

/-- Example valid pagination. -/
def exPagination : OffsetLimit := { offset := 0, limit := 20 }

/-- Example request with no attached identity, a device header and a realm
path. -/
def exPartsNoId : Parts :=
  { extIdentity := none, headers := [("x-device-id", "dev9")],
    uriPath := "/realms/acme/devices/dev9" }

/-! ### Sanity theorems for the hash embedding (NIST test vectors) -/

/-- NIST test vector: SHA-256 of `"abc"`. -/
theorem sha256_vector_abc :
    hexEncode (sha256 (strBytes "abc")) =
      "ba7816bf8f01cfea414140de5dae2223b00361a396177a9cb410ff61f20015ad" := by decide

/-- NIST test vector: SHA-256 of the empty string. -/
theorem sha256_vector_empty :
    hexEncode (sha256 (strBytes "")) =
      "e3b0c44298fc1c149afbf4c8996fb92427ae41e4649b934ca495991b7852b855" := by decide

/-! ### Claim theorems -/

/-- C9: for every device id, `generate_anonymous_username` is the hex
encoding of the first 16 bytes of the SHA-256 digest of the device id,
`generate_anonymous_email` and `generate_anonymous_name` are functions of
that same hash only, and all three are pure: calling twice with the same
input yields identical output. -/
theorem anonymous_derivation_deterministic :
    (∀ device_id, generate_anonymous_username device_id =
      hexEncode (List.take 16 (sha256 (strBytes device_id)))) ∧
    (∃ f : String → String, ∀ device_id,
      generate_anonymous_email device_id = f (hash_device_id device_id)) ∧
    (∃ g : String → String → String, ∀ device_id suffix,
      generate_anonymous_name device_id suffix = g (hash_device_id device_id) suffix) ∧
    (∀ device_id suffix,
      generate_anonymous_username device_id = generate_anonymous_username device_id ∧
      generate_anonymous_email device_id = generate_anonymous_email device_id ∧
      generate_anonymous_name device_id suffix = generate_anonymous_name device_id suffix) :=
  ⟨fun _ => rfl,
   ⟨fun h => "device_" ++ h ++ "@anonymous.local", fun _ => rfl⟩,
   ⟨fun h suffix => "device_" ++ h ++ "_" ++ suffix, fun _ _ => rfl⟩,
   fun _ _ => ⟨rfl, rfl, rfl⟩⟩

/-- C6: for every token whose split on `.` does not give exactly 3 segments,
the claims codec returns `InvalidToken` — for every choice of base64, UTF-8
and JSON decoder, so none of them is consulted before the segment-count
check; the codec is a total function, so it never panics. -/
theorem jwt_segment_count_invalid (b64UrlDecodeNoPad : String → Option (List Nat))
    (utf8Decode : List Nat → Option String) (parseClaims : String → Option JwtClaim)
    (token : String) (h : (splitChar '.' token).length ≠ 3) :
    jwtDecode b64UrlDecodeNoPad utf8Decode parseClaims token = .error .InvalidToken := by
  unfold jwtDecode
  simp [h]

/-- Witness for C6 at the two-segment token `a.b`. -/
theorem jwt_segment_count_invalid_witness :
    (splitChar '.' "a.b").length ≠ 3 ∧
    jwtDecode (fun _ => none) (fun _ => none) (fun _ => none) "a.b" = .error .InvalidToken :=
  ⟨by decide, jwt_segment_count_invalid (fun _ => none) (fun _ => none) (fun _ => none) "a.b" (by decide)⟩

/-- C1: when an `Identity` is already attached to the request context, the
`RequiredIdentity` extractor returns exactly that identity, leaves the store
untouched and performs no repository call at all (empty trace) — even when an
`X-Device-Id` header is present, so the device-derived identity is never
returned in that case. -/
theorem required_identity_bearer_wins (s : Store) (parts : Parts) (identity : Identity)
    (device_id : String) (hI : parts.extIdentity = some identity)
    (hD : getHeaderValue parts.headers "x-device-id" = some device_id) :
    requiredIdentityFromRequestParts s parts = (.ok identity, parts, s, []) := by
  unfold requiredIdentityFromRequestParts
  rw [hI]

/-- Witness for C1: a request with an attached bearer identity and the
`X-Device-Id: dev1` header resolves to the attached identity. -/
theorem required_identity_bearer_wins_witness :
    exParts.extIdentity = some exIdentity ∧
    getHeaderValue exParts.headers "x-device-id" = some "dev1" ∧
    requiredIdentityFromRequestParts exStore exParts = (.ok exIdentity, exParts, exStore, []) :=
  ⟨rfl, rfl, required_identity_bearer_wins exStore exParts exIdentity "dev1" rfl rfl⟩

/-- Helper: after any call of the provisioner, looking up the returned
profile key in the returned store finds the returned profile. -/
theorem gocp_lookup (s : Store) (realm : Realm) (device_id : String) (identity : Identity) :
    (get_or_create_device_profile s realm device_id identity).2.1.getProfileByRealmAndDevice
        realm.id device_id =
      some (get_or_create_device_profile s realm device_id identity).1 := by
  unfold get_or_create_device_profile
  cases h : s.getProfileByRealmAndDevice realm.id device_id with
  | some profile => simpa using h
  | none =>
    simp only [Store.getProfileByRealmAndDevice, Store.createUser, Store.freshUuid,
      Store.createProfile, DeviceProfile.new] at h ⊢
    rw [List.find?_append, h]
    simp

/-- Helper: with an existing profile the provisioner takes the fast path:
the found profile, the unchanged store and a single lookup event. -/
theorem gocp_fast (s : Store) (realm : Realm) (device_id : String) (identity : Identity)
    (p : DeviceProfile) (h : s.getProfileByRealmAndDevice realm.id device_id = some p) :
    get_or_create_device_profile s realm device_id identity =
      (p, s, [RepoEvent.getProfileByRealmAndDevice realm.id device_id]) := by
  unfold get_or_create_device_profile
  rw [h]

/-- C2: under sequential execution, a second call of the provisioner with the
same `(realm, device_id)` returns a profile with the same id, leaves the
store unchanged (no new user row, no new profile row) and performs only the
single lookup (the fast path). -/
theorem get_or_create_idempotent (s : Store) (realm : Realm) (device_id : String)
    (i1 i2 : Identity) :
    (get_or_create_device_profile (get_or_create_device_profile s realm device_id i1).2.1
        realm device_id i2).1.id =
      (get_or_create_device_profile s realm device_id i1).1.id ∧
    (get_or_create_device_profile (get_or_create_device_profile s realm device_id i1).2.1
        realm device_id i2).2.1 =
      (get_or_create_device_profile s realm device_id i1).2.1 ∧
    (get_or_create_device_profile (get_or_create_device_profile s realm device_id i1).2.1
        realm device_id i2).2.2 =
      [RepoEvent.getProfileByRealmAndDevice realm.id device_id] := by
  rw [gocp_fast (get_or_create_device_profile s realm device_id i1).2.1 realm device_id i2
    (get_or_create_device_profile s realm device_id i1).1
    (gocp_lookup s realm device_id i1)]
  exact ⟨rfl, rfl, rfl⟩

/-- C10: in the `RequiredIdentity` device-provisioning path, when no device
profile exists the realm admin lookup runs first; if no `admin` user exists
in the realm, resolution fails with `InternalServerError`, the store is
unchanged (no anonymous user, no device profile was created) and the trace
shows only the three lookups. -/
theorem admin_lookup_gates_provisioning (s : Store) (realm : Realm)
    (device_id realm_name : String)
    (hrealm : s.getRealmByName realm_name = some realm)
    (hprof : s.getProfileByRealmAndDevice realm.id device_id = none)
    (hadmin : s.getUserByUsername "admin" realm.id = none) :
    create_identity_from_device s device_id realm_name =
      (.error (.InternalServerError "Failed to get admin user"), s,
        [.getRealmByName realm_name, .getProfileByRealmAndDevice realm.id device_id,
         .getUserByUsername "admin" realm.id]) := by
  unfold create_identity_from_device get_admin_user_id
  simp only [hrealm, hprof, hadmin]

/-- Witness for C10: realm `acme` with a single non-admin user rejects
anonymous first contact with `InternalServerError` and creates nothing. -/
theorem admin_lookup_gates_provisioning_witness :
    exStoreNoAdmin.getRealmByName "acme" = some exRealm ∧
    exStoreNoAdmin.getProfileByRealmAndDevice exRealm.id "dev1" = none ∧
    exStoreNoAdmin.getUserByUsername "admin" exRealm.id = none ∧
    create_identity_from_device exStoreNoAdmin "dev1" "acme" =
      (.error (.InternalServerError "Failed to get admin user"), exStoreNoAdmin,
        [.getRealmByName "acme", .getProfileByRealmAndDevice exRealm.id "dev1",
         .getUserByUsername "admin" exRealm.id]) :=
  ⟨rfl, rfl, rfl,
   admin_lookup_gates_provisioning exStoreNoAdmin exRealm "dev1" "acme" rfl rfl rfl⟩

/-- C4 counterexample: in the `RequiredIdentity` provisioning path
(`create_identity_from_device`) there is no acting identity, yet the profile
created for device `dev1` in `exStore` records `created_by = some 10` — the
realm admin id — while the newly created anonymous user has id 20.  So
`created_by` is neither an acting identity id nor the new user's own id,
refuting the claim as stated. -/
theorem created_by_counterexample :
    ((create_identity_from_device exStore "dev1" "acme").2.1.profiles.map
        (fun p => (p.created_by, p.user_id))) = [(some exAdmin.id, 20)] ∧
    exAdmin.id ≠ 20 :=
  ⟨rfl, by decide⟩

/-- C4 (amended): whenever the provisioning paths create a new device
profile, `created_by` is the acting identity's id in the core
`get_or_create_device_profile` path, the newly created anonymous user's own
id in the device middleware's anonymous path, and the realm `admin` user's
id in the `RequiredIdentity` path (`create_identity_from_device`). -/
theorem created_by_provenance (g : Identity → String → Option Realm)
    (s : Store) (realm : Realm) (device_id realm_name : String) (identity : Identity)
    (admin : User) (parts : Parts)
    (hnone : s.getProfileByRealmAndDevice realm.id device_id = none)
    (hrealm : s.getRealmByName realm_name = some realm)
    (hadmin : s.getUserByUsername "admin" realm.id = some admin)
    (hpid : parts.extIdentity = none)
    (hhdr : getHeaderValue parts.headers "x-device-id" = some device_id)
    (hpath : extract_realm_from_path parts.uriPath = some realm_name) :
    (get_or_create_device_profile s realm device_id identity).1.created_by =
      some identity.id ∧
    (∃ p, (device_middleware g s parts).2.1.profiles = s.profiles ++ [p] ∧
      p.created_by = some p.user_id) ∧
    (∃ p, (create_identity_from_device s device_id realm_name).2.1.profiles =
        s.profiles ++ [p] ∧ p.created_by = some admin.id ∧ p.user_id = s.nextUuid) := by
  refine ⟨?_, ?_, ?_⟩
  · unfold get_or_create_device_profile
    simp only [hnone, Store.createUser, Store.freshUuid, Store.createProfile, DeviceProfile.new]
  · unfold device_middleware
    simp only [hhdr, hpath, hpid, hrealm, hnone, Option.getD_some, Store.createUser,
      Store.freshUuid, Store.createProfile, DeviceProfile.new]
    exact ⟨_, rfl, rfl⟩
  · unfold create_identity_from_device get_admin_user_id
    simp only [hrealm, hnone, hadmin, Store.createUser, Store.freshUuid, Store.createProfile,
      DeviceProfile.new]
    split <;> exact ⟨_, rfl, rfl, rfl⟩

/-- Witness for C4 (amended) at the core provisioner path in `exStore`. -/
theorem created_by_provenance_witness :
    (get_or_create_device_profile exStore exRealm "dev9" exIdentity).1.created_by =
      some exIdentity.id :=
  (created_by_provenance (fun _ _ => none) exStore exRealm "dev9" "acme" exIdentity exAdmin
    exPartsNoId rfl rfl rfl rfl rfl rfl).1

/-- C5: for every request and every behaviour of the external codecs and auth
service, the soft `auth` middleware returns `Ok` of the downstream response —
it never rejects — and the request it hands downstream carries an attached
`Identity` exactly when the whole bearer resolution chain (header present,
`Bearer ` prefix, non-empty token, 3 segments, base64url decode, UTF-8
decode, claims parse, external authorization) succeeds; otherwise the request
is passed through unchanged. -/
theorem auth_soft_mode {Response : Type} (b64UrlDecodeNoPad : String → Option (List Nat))
    (utf8Decode : List Nat → Option String) (parseClaims : String → Option JwtClaim)
    (authorizeRequest : JwtClaim → String → Option Identity)
    (req : Parts) (next : Parts → Response) :
    auth b64UrlDecodeNoPad utf8Decode parseClaims authorizeRequest req next =
      .ok (next { req with extIdentity :=
        (softBearerResolveSpec b64UrlDecodeNoPad utf8Decode parseClaims authorizeRequest
          req.headers).elim req.extIdentity some }) := by
  unfold auth softBearerResolveSpec
  dsimp only
  split <;> rename_i heq1
  · rw [heq1]
    rfl
  · rw [heq1]
    simp only [bind, Option.bind]
    split <;> rename_i heq2
    · rw [heq2]
      rfl
    · rw [heq2]
      simp only [bind, Option.bind]
      split <;> rename_i h3
      · rfl
      · split <;> rename_i h4
        · rw [beq_iff_eq] at h4
          rw [if_pos h4]
          split <;> rename_i heq5
          · rw [heq5]
            rfl
          · rw [heq5]
            dsimp only
            split <;> rename_i heq6
            · rw [heq6]
              rfl
            · rw [heq6]
              dsimp only
              split <;> rename_i heq7
              · rw [heq7]
                rfl
              · rw [heq7]
                dsimp only
                split <;> rename_i heq8
                · rw [heq8]
                  rfl
                · rw [heq8]
                  rfl
        · rw [beq_iff_eq] at h4
          rw [if_neg h4]
          rfl

/-- Helper: binding a successful `Except` value applies the continuation. -/
theorem except_bind_ok {ε α β : Type} (a : α) (f : α → Except ε β) :
    (Except.ok a >>= f : Except ε β) = f a := rfl

/-- C3: in `complete_upload` and `list_files`, when the entity's (or
filter's) realm id differs from the caller's resolved realm id and the
caller's realm is not `master`, the service returns the realm-guard
`Forbidden` error before the policy check or the listing run; when the ids
match or the caller's realm is `master`, the guard passes and the service
continues with exactly the policy check and the remaining steps. -/
theorem storage_realm_guard (canUpload canView : Identity → Realm → Except CoreError Bool)
    (listRepo : StoredObjectFilter → OffsetLimit → Except CoreError (List StoredObject))
    (s : Store) (objects : List StoredObject) (identity : Identity) (object_id : Nat)
    (filter : StoredObjectFilter) (pagination : OffsetLimit)
    (so : StoredObject) (user : User) (realm : Realm) (rid : Nat)
    (hso : getStoredObjectById objects object_id = .ok so)
    (huser : getUserByIdStrict s identity.id = .ok user)
    (hrealm : user.realm = some realm)
    (hpag : pagination.validate = .ok ())
    (hfilter : filter.realm_id = some rid) :
    (so.realm_id ≠ realm.id ∧ realm.name ≠ "master" →
      complete_upload canUpload s objects identity object_id =
        .error (.Forbidden "File not in accessible realm")) ∧
    (so.realm_id = realm.id ∨ realm.name = "master" →
      complete_upload canUpload s objects identity object_id =
        (do
          ensure_policy (canUpload identity realm) "insufficient permissions to complete upload"
          if so.uploaded_by ≠ identity.id then
            Except.error (.Forbidden "cannot complete upload for another user")
          else pure so)) ∧
    (rid ≠ realm.id ∧ realm.name ≠ "master" →
      list_files canView listRepo s identity filter pagination =
        .error (.Forbidden "Cannot list files in inaccessible realm")) ∧
    (rid = realm.id ∨ realm.name = "master" →
      list_files canView listRepo s identity filter pagination =
        (do
          ensure_policy (canView identity realm) "insufficient permissions to list files"
          listRepo filter pagination)) := by
  have hnotc : ∀ a b : Nat, ∀ n : String, a = b ∨ n = "master" →
      ¬(a ≠ b ∧ n ≠ "master") := by
    rintro a b n (h | h) ⟨h1, h2⟩
    · exact h1 h
    · exact h2 h
  refine ⟨?_, ?_, ?_, ?_⟩
  · intro hcond
    unfold complete_upload
    rw [hso]
    rw [except_bind_ok, huser, except_bind_ok, hrealm]
    dsimp only
    rw [except_bind_ok, if_pos hcond]
  · intro hcond
    unfold complete_upload
    rw [hso]
    rw [except_bind_ok, huser, except_bind_ok, hrealm]
    dsimp only
    rw [except_bind_ok, if_neg (hnotc _ _ _ hcond)]
  · intro hcond
    unfold list_files
    rw [hpag]
    dsimp only
    rw [except_bind_ok, hfilter]
    dsimp only
    rw [except_bind_ok, huser, except_bind_ok, hrealm]
    dsimp only
    rw [except_bind_ok, if_pos hcond]
  · intro hcond
    unfold list_files
    rw [hpag]
    dsimp only
    rw [except_bind_ok, hfilter]
    dsimp only
    rw [except_bind_ok, huser, except_bind_ok, hrealm]
    dsimp only
    rw [except_bind_ok, if_neg (hnotc _ _ _ hcond)]

/-- Witness for C3: user `bob` of realm `acme` asking about an object stored
in foreign realm 3 is rejected by the realm guard. -/
theorem storage_realm_guard_witness :
    complete_upload (fun _ _ => .ok true) exStore [exObjForeign] exIdentity 5 =
      .error (.Forbidden "File not in accessible realm") :=
  (storage_realm_guard (fun _ _ => .ok true) (fun _ _ => .ok true) (fun _ _ => .ok [])
    exStore [exObjForeign] exIdentity 5 exFilter exPagination exObjForeign exBob exRealm 3
    rfl rfl rfl rfl rfl).1 (by decide)

/-- Helper: the shared whitelist rule is monotone under permission-set
inclusion. -/
theorem has_one_of_mono (P1 P2 required : List Permissions)
    (hsub : ∀ p, p ∈ P1 → p ∈ P2)
    (h : has_one_of_permissions P1 required = true) :
    has_one_of_permissions P2 required = true := by
  unfold has_one_of_permissions at h ⊢
  rw [List.any_eq_true] at h ⊢
  obtain ⟨p, hp, hc⟩ := h
  exact ⟨p, hsub p hp, hc⟩

/-- C7: every embedded policy check is monotone in the caller's permission
set: enlarging the effective permission set (for the same resolved user and
target realm) never turns a granted capability into a denial. -/
theorem policy_monotone (u : User) (identity : Identity) (target_realm : Realm)
    (P1 P2 : List Permissions) (hsub : ∀ p, p ∈ P1 → p ∈ P2) :
    (can_view_prompt (fun _ => .ok u) (fun _ _ => .ok P1) identity target_realm = .ok true →
      can_view_prompt (fun _ => .ok u) (fun _ _ => .ok P2) identity target_realm = .ok true) ∧
    (can_create_prompt (fun _ => .ok u) (fun _ _ => .ok P1) identity target_realm = .ok true →
      can_create_prompt (fun _ => .ok u) (fun _ _ => .ok P2) identity target_realm = .ok true) ∧
    (can_update_prompt (fun _ => .ok u) (fun _ _ => .ok P1) identity target_realm = .ok true →
      can_update_prompt (fun _ => .ok u) (fun _ _ => .ok P2) identity target_realm = .ok true) ∧
    (can_delete_prompt (fun _ => .ok u) (fun _ _ => .ok P1) identity target_realm = .ok true →
      can_delete_prompt (fun _ => .ok u) (fun _ _ => .ok P2) identity target_realm = .ok true) ∧
    (can_analyze_food (fun _ => .ok u) (fun _ _ => .ok P1) identity target_realm = .ok true →
      can_analyze_food (fun _ => .ok u) (fun _ _ => .ok P2) identity target_realm = .ok true) ∧
    (can_view_analysis (fun _ => .ok u) (fun _ _ => .ok P1) identity target_realm = .ok true →
      can_view_analysis (fun _ => .ok u) (fun _ _ => .ok P2) identity target_realm = .ok true) := by
  refine ⟨?_, ?_, ?_, ?_, ?_, ?_⟩ <;>
    exact fun h => congrArg Except.ok (has_one_of_mono P1 P2 _ hsub (Except.ok.inj h))

/-- Witness for C7: granting `ManageRealm` on top of `ViewWebhooks` keeps
`can_view_prompt` granted. -/
theorem policy_monotone_witness :
    can_view_prompt (fun _ => .ok exBob)
      (fun _ _ => .ok [Permissions.ViewWebhooks, Permissions.ManageRealm])
      exIdentity exRealm = .ok true :=
  (policy_monotone exBob exIdentity exRealm [Permissions.ViewWebhooks]
    [Permissions.ViewWebhooks, Permissions.ManageRealm]
    (fun p hp => by
      simp only [List.mem_cons, List.not_mem_nil, or_false] at hp
      simp [hp])).1 rfl

/-- C8: a caller whose effective permission set is exactly `{ViewWebhooks}`
is denied on the mutating prompt checks (whitelist
`{ManageRealm, ManageWebhooks}`) but granted on `can_view_prompt` and
`can_analyze_food` (whitelists including `ViewWebhooks`); the read whitelist
is a superset of the write whitelist. -/
theorem viewwebhooks_read_write_split :
    can_create_prompt (fun _ => .ok exBob) (fun _ _ => .ok [Permissions.ViewWebhooks])
      exIdentity exRealm = .ok false ∧
    can_update_prompt (fun _ => .ok exBob) (fun _ _ => .ok [Permissions.ViewWebhooks])
      exIdentity exRealm = .ok false ∧
    can_delete_prompt (fun _ => .ok exBob) (fun _ _ => .ok [Permissions.ViewWebhooks])
      exIdentity exRealm = .ok false ∧
    can_view_prompt (fun _ => .ok exBob) (fun _ _ => .ok [Permissions.ViewWebhooks])
      exIdentity exRealm = .ok true ∧
    can_analyze_food (fun _ => .ok exBob) (fun _ _ => .ok [Permissions.ViewWebhooks])
      exIdentity exRealm = .ok true ∧
    [Permissions.ManageRealm, Permissions.ManageWebhooks] ⊆
      [Permissions.ManageRealm, Permissions.ManageWebhooks, Permissions.ViewWebhooks] :=
  ⟨rfl, rfl, rfl, rfl, rfl, by decide⟩
